import Mathlib

/-!
Verification of the `GalaxyContribInstance` connection manager from
`src/bioblend_contrib/galaxy/__init__.py` (repository biomaj2galaxy).

The development shallowly embeds the instance state and its operations:
`__init__` (URL normalisation via Python 2.7 `urlparse`), the lazy `key`
property (credential caching and the authentication exchange, with the HTTP
layer supplied as an oracle), `default_params`, and the retry-policy
pass-through accessors. The Python 2.7 `urlparse` module and `base64.b64encode`
are embedded faithfully because the URL claims depend on their exact
behaviour.
-/

namespace B2G

/-- Python exception values raised by the embedded code: `ValueError` (from
`urlparse`), a plain `Exception(msg)` (from the `key` property), and `KeyError`
(from a missing JSON field). -/
inductive PyErr where
  | valueError (msg : String)
  | exception (msg : String)
  | keyError (missing : String)
deriving DecidableEq

namespace Py

/-- Python `s.find(c)`: index of the first occurrence of `c` in `s`, `none`
when absent (Python returns `-1`). -/
def pyFind (c : Char) : List Char → Option Nat
  | [] => none
  | a :: s => if a = c then some 0 else (pyFind c s).map (· + 1)

/-- Python `s.find(c, start)`. -/
def pyFindFrom (c : Char) (s : List Char) (start : Nat) : Option Nat :=
  (pyFind c (s.drop start)).map (· + start)

/-- Python `s.rfind(c)`: index of the last occurrence of `c` in `s`. -/
def pyRFind (c : Char) : List Char → Option Nat
  | [] => none
  | a :: s =>
    match pyRFind c s with
    | some i => some (i + 1)
    | none => if a = c then some 0 else none

/-- Python `c in s` for a character `c`. -/
def pyIn (c : Char) (s : List Char) : Bool :=
  s.any (fun a => a == c)

/-- Python `s.split(c, 1)`; callers only use it when `c` occurs in `s`. -/
def pySplit1 (s : List Char) (c : Char) : List Char × List Char :=
  match pyFind c s with
  | none => (s, [])
  | some i => (s.take i, s.drop (i + 1))

/-- Python `s.split(c)` (split on every occurrence; `"".split(c) = [""]`). -/
def pySplitAll (c : Char) : List Char → List (List Char)
  | [] => [[]]
  | a :: s =>
    if a = c then [] :: pySplitAll c s
    else
      match pySplitAll c s with
      | t :: ts => (a :: t) :: ts
      | [] => [[a]]

/-- Python `sep.join(segs)` for a one-character separator. -/
def pyJoin (c : Char) : List (List Char) → List Char
  | [] => []
  | [s] => s
  | s :: rest => s ++ c :: pyJoin c rest

/-- Scheme lists from Python 2.7.18 `urlparse.py`. -/
def uses_relative : List (List Char) :=
  ["ftp", "http", "gopher", "nntp", "imap", "wais", "file", "https", "shttp",
   "mms", "prospero", "rtsp", "rtspu", "", "sftp", "svn", "svn+ssh"].map String.data

/-- Scheme list `uses_netloc` from Python 2.7.18 `urlparse.py`. -/
def uses_netloc : List (List Char) :=
  ["ftp", "http", "gopher", "nntp", "telnet", "imap", "wais", "file", "mms",
   "https", "shttp", "snews", "prospero", "rtsp", "rtspu", "rsync", "",
   "svn", "svn+ssh", "sftp", "nfs", "git", "git+ssh"].map String.data

/-- Scheme list `uses_params` from Python 2.7.18 `urlparse.py`. -/
def uses_params : List (List Char) :=
  ["ftp", "hdl", "prospero", "http", "imap", "https", "shttp", "rtsp",
   "rtspu", "sip", "sips", "mms", "", "sftp", "tel"].map String.data

/-- Scheme list `uses_query` from Python 2.7.18 `urlparse.py`. -/
def uses_query : List (List Char) :=
  ["http", "wais", "imap", "https", "shttp", "mms", "gopher", "rtsp",
   "rtspu", "sip", "sips", ""].map String.data

/-- Scheme list `uses_fragment` from Python 2.7.18 `urlparse.py`. -/
def uses_fragment : List (List Char) :=
  ["ftp", "hdl", "http", "gopher", "news", "nntp", "wais", "https", "shttp",
   "snews", "file", "prospero", ""].map String.data

/-- Characters allowed in a URL scheme, from Python 2.7.18 `urlparse.py`. -/
def scheme_chars : List Char :=
  ("abcdefghijklmnopqrstuvwxyzABCDEFGHIJKLMNOPQRSTUVWXYZ0123456789+-.").data

/-- Minimum of two optional indices (absent finds do not constrain the
minimum), as in `_splitnetloc`. -/
def optMin : Option Nat → Option Nat → Option Nat
  | none, b => b
  | some a, none => some a
  | some a, some b => some (min a b)

/-- Python 2.7 `_splitnetloc(url, start)`: split at the earliest of `/`, `?`,
`#` at or after `start`, returning `(url[start:delim], url[delim:])`. -/
def splitnetloc (url : List Char) (start : Nat) : List Char × List Char :=
  let d := optMin (pyFindFrom '/' url start)
    (optMin (pyFindFrom '?' url start) (pyFindFrom '#' url start))
  match d with
  | none => (url.drop start, [])
  | some delim => ((url.drop start).take (delim - start), url.drop delim)

/-- Result of `urlsplit`: scheme, netloc, path, query, fragment. -/
structure SplitResult where
  scheme : List Char
  netloc : List Char
  path : List Char
  query : List Char
  fragment : List Char
deriving DecidableEq

/-- Netloc extraction shared by both branches of Python 2.7 `urlsplit`:
`if url[:2] == '//': netloc, url = _splitnetloc(url, 2)` followed by the
IPv6 bracket validation, which raises `ValueError` on a mismatched bracket. -/
def urlsplitNetloc (url : List Char) : Except PyErr (List Char × List Char) :=
  if url.take 2 = ['/', '/'] then
    let p := splitnetloc url 2
    if (pyIn '[' p.1 && !pyIn ']' p.1) || (pyIn ']' p.1 && !pyIn '[' p.1) then
      .error (.valueError "Invalid IPv6 URL")
    else .ok p
  else .ok ([], url)

/-- Body of the `url[:i] == 'http'` fast path of Python 2.7 `urlsplit` (with
`allow_fragments=True`): netloc split with the IPv6 bracket check, then
unconditional fragment and query splits. -/
def urlsplitHttpFast (scheme url : List Char) : Except PyErr SplitResult :=
  match urlsplitNetloc url with
  | .error e => .error e
  | .ok (netloc, url) =>
    let (url, fragment) := if pyIn '#' url then pySplit1 url '#' else (url, [])
    let (url, query) := if pyIn '?' url then pySplit1 url '?' else (url, [])
    .ok ⟨scheme, netloc, url, query, fragment⟩

/-- Tail of the general branch of Python 2.7 `urlsplit` (with
`allow_fragments=True`): netloc split with the IPv6 bracket check, then
fragment and query splits guarded by the `uses_fragment`/`uses_query` lists. -/
def urlsplitRest (scheme url : List Char) : Except PyErr SplitResult :=
  match urlsplitNetloc url with
  | .error e => .error e
  | .ok (netloc, url) =>
    let (url, fragment) :=
      if uses_fragment.contains scheme && pyIn '#' url then pySplit1 url '#' else (url, [])
    let (url, query) :=
      if uses_query.contains scheme && pyIn '?' url then pySplit1 url '?' else (url, [])
    .ok ⟨scheme, netloc, url, query, fragment⟩

/-- Python 2.7 `urlsplit(url, scheme)` with `allow_fragments=True`. The second
argument is the default scheme. May raise `ValueError("Invalid IPv6 URL")`. -/
def urlsplit (url scheme : List Char) : Except PyErr SplitResult :=
  match pyFind ':' url with
  | none => urlsplitRest scheme url
  | some i =>
    if i = 0 then urlsplitRest scheme url
    else if url.take i = "http".data then
      urlsplitHttpFast ((url.take i).map Char.toLower) (url.drop (i + 1))
    else if (url.take i).all (fun c => scheme_chars.contains c) then
      let rest := url.drop (i + 1)
      if rest.isEmpty || rest.any (fun c => !c.isDigit) then
        urlsplitRest ((url.take i).map Char.toLower) rest
      else
        urlsplitRest scheme url
    else
      urlsplitRest scheme url

/-- Python 2.7 `_splitparams(url)`. -/
def splitparams (url : List Char) : List Char × List Char :=
  if pyIn '/' url then
    match pyRFind '/' url with
    | some j =>
      match pyFindFrom ';' url j with
      | some i => (url.take i, url.drop (i + 1))
      | none => (url, [])
    | none => (url, [])
  else
    match pyFind ';' url with
    | some i => (url.take i, url.drop (i + 1))
    | none => (url, [])

/-- Result of `urlparse`: scheme, netloc, path, params, query, fragment. -/
structure ParseResult where
  scheme : List Char
  netloc : List Char
  path : List Char
  params : List Char
  query : List Char
  fragment : List Char
deriving DecidableEq

/-- Python 2.7 `urlparse(url, scheme)` with `allow_fragments=True`. -/
def urlparse (url scheme : List Char) : Except PyErr ParseResult :=
  match urlsplit url scheme with
  | .error e => .error e
  | .ok t =>
    if uses_params.contains t.scheme && pyIn ';' t.path then
      let p := splitparams t.path
      .ok ⟨t.scheme, t.netloc, p.1, p.2, t.query, t.fragment⟩
    else
      .ok ⟨t.scheme, t.netloc, t.path, [], t.query, t.fragment⟩

/-- Python 2.7 `urlunsplit((scheme, netloc, url, query, fragment))`. -/
def urlunsplit (scheme netloc path query fragment : List Char) : List Char :=
  let url :=
    if !netloc.isEmpty || (!path.isEmpty && path.take 2 = ['/', '/']) then
      let url1 := if !path.isEmpty && path.take 1 ≠ ['/'] then '/' :: path else path
      '/' :: '/' :: (netloc ++ url1)
    else path
  let url := if !scheme.isEmpty then scheme ++ ':' :: url else url
  let url := if !query.isEmpty then url ++ '?' :: query else url
  if !fragment.isEmpty then url ++ '#' :: fragment else url

/-- Python 2.7 `urlunparse((scheme, netloc, url, params, query, fragment))`. -/
def urlunparse (scheme netloc path prms query fragment : List Char) : List Char :=
  let url := if !prms.isEmpty then path ++ ';' :: prms else path
  urlunsplit scheme netloc url query fragment

/-- One scan of the `..`-removal loop of Python 2.7 `urljoin`: the first index
`i` with `1 ≤ i ≤ len - 2` such that `segments[i] = ".."` and
`segments[i-1] ∉ {"", ".."}`. -/
def dotdotFind (segs : List (List Char)) : Option Nat :=
  (List.range' 1 (segs.length - 1 - 1)).find? (fun i =>
    segs.getD i [] == ['.', '.'] &&
    !(segs.getD (i - 1) [] == ([] : List Char) || segs.getD (i - 1) [] == ['.', '.']))

/-- The `..`-removal loop of Python 2.7 `urljoin`: repeatedly delete the two
segments found by `dotdotFind` until none remains. Each deletion removes two
elements, so `segs.length` steps of fuel always suffice. -/
def dotdotLoop : Nat → List (List Char) → List (List Char)
  | 0, segs => segs
  | fuel + 1, segs =>
    match dotdotFind segs with
    | none => segs
    | some i => dotdotLoop fuel (segs.take (i - 1) ++ segs.drop (i + 1))

/-- The segment-merging tail of Python 2.7 `urljoin` (everything from
`segments = bpath.split('/')[:-1] + path.split('/')` to the final
`urlunparse`). -/
def urljoinSegments (bpath rpath : List Char) : List Char :=
  let segments := (pySplitAll '/' bpath).dropLast ++ pySplitAll '/' rpath
  let segments :=
    if segments.getLast? = some ['.'] then segments.dropLast ++ [[]] else segments
  let segments := segments.filter (fun s => s != ['.'])
  let segments := dotdotLoop segments.length segments
  let segments :=
    if segments = [[], ['.', '.']] then [([] : List Char), []]
    else if 2 ≤ segments.length ∧ segments.getLast? = some ['.', '.'] then
      segments.dropLast.dropLast ++ [[]]
    else segments
  pyJoin '/' segments

/-- Python 2.7 `urljoin(base, url)` with `allow_fragments=True`; the early
`return` statements of the source become the `else` chain. -/
def urljoin (base url : List Char) : Except PyErr (List Char) :=
  if base.isEmpty then .ok url
  else if url.isEmpty then .ok base
  else
    match urlparse base [] with
    | .error e => .error e
    | .ok b =>
      match urlparse url b.scheme with
      | .error e => .error e
      | .ok r =>
        if r.scheme != b.scheme || !uses_relative.contains r.scheme then
          .ok url
        else if uses_netloc.contains r.scheme && !r.netloc.isEmpty then
          .ok (urlunparse r.scheme r.netloc r.path r.params r.query r.fragment)
        else
          let netloc := if uses_netloc.contains r.scheme then b.netloc else r.netloc
          if r.path.take 1 = ['/'] then
            .ok (urlunparse r.scheme netloc r.path r.params r.query r.fragment)
          else if r.path.isEmpty && r.params.isEmpty then
            let query := if r.query.isEmpty then b.query else r.query
            .ok (urlunparse r.scheme netloc b.path b.params query r.fragment)
          else
            .ok (urlunparse r.scheme netloc (urljoinSegments b.path r.path)
              r.params r.query r.fragment)

/-- The standard base64 alphabet, as used by Python's `base64.b64encode`. -/
def b64chars : List Char :=
  ("ABCDEFGHIJKLMNOPQRSTUVWXYZabcdefghijklmnopqrstuvwxyz0123456789+/").data

/-- Character of the base64 alphabet at a 6-bit index. -/
def b64char (n : Nat) : Char := b64chars.getD n 'A'

/-- Python `base64.b64encode` on a byte string, with `=` padding. -/
def b64encodeBytes : List Nat → List Char
  | [] => []
  | [b1] => [b64char (b1 / 4), b64char (b1 % 4 * 16), '=', '=']
  | [b1, b2] => [b64char (b1 / 4), b64char (b1 % 4 * 16 + b2 / 16), b64char (b2 % 16 * 4), '=']
  | b1 :: b2 :: b3 :: rest =>
    b64char (b1 / 4) :: b64char (b1 % 4 * 16 + b2 / 16) ::
      b64char (b2 % 16 * 4 + b3 / 64) :: b64char (b3 % 64) :: b64encodeBytes rest

/-- Python `base64.b64encode` on an ASCII string. -/
def b64encode (s : String) : String :=
  String.mk (b64encodeBytes (s.data.map Char.toNat))

end Py

/-- One HTTP request as issued through `requests.get(auth_url, verify=...,
headers=...)`. -/
structure Request where
  method : String
  url : String
  verify : Bool
  headers : List (String × String)
deriving DecidableEq

/-- One HTTP response: the status code and the body parsed as a JSON object of
string fields (the only part of the body the code reads is
`r.json()["api_key"]`). -/
structure Response where
  status_code : Nat
  json : List (String × String)
deriving DecidableEq

/-- State of a `GalaxyContribInstance`: the attributes set by `__init__`
(`src/bioblend_contrib/galaxy/__init__.py`, lines 54-68). The resource-client
attributes are external-library objects holding only a back-reference to the
instance and are not part of the state any claim reads. When a truthy `key` is
supplied, `__init__` never sets the `email`/`password` attributes; they are
modelled as `none` there, which is observationally equivalent because the
`key` property reads them only when `__key` is `None`. -/
structure GalaxyContribInstance where
  base_url : String
  url : String
  __key : Option String
  email : Option String
  password : Option String
  json_headers : List (String × String)
  verify : Bool
deriving DecidableEq

/-- Python truthiness of an optional string (`if key:`): `None` and the empty
string are falsy. -/
def pyTruthy : Option String → Bool
  | none => false
  | some s => !s.isEmpty

/-- Python `"%s" % x` for an optional string: `None` formats as `"None"`. -/
def pyStr : Option String → String
  | none => "None"
  | some s => s

/-- Python `d.copy()` followed by `d[k] = v`, on a dict modelled as an
association list: replace the binding of `k` in place, or append it. -/
def dictSet (d : List (String × String)) (k v : String) : List (String × String) :=
  if d.any (fun p => p.1 == k) then
    d.map (fun p => if p.1 == k then (k, v) else p)
  else d ++ [(k, v)]

/-- Python `GalaxyContribInstance.__init__(url, key, email, password)` (lines
54-68): normalise the scheme, derive the api URL via `urljoin`, and set the
credential fields (`if key:` treats an empty string as absent). Propagates the
`ValueError` that `urlparse`/`urljoin` can raise on an invalid IPv6 netloc. -/
def GalaxyContribInstance.init (url : String) (key email password : Option String) :
    Except PyErr GalaxyContribInstance :=
  match Py.urlparse url.data [] with
  | .error e => .error e
  | .ok p =>
    match Py.urljoin (if p.scheme.isEmpty then "http://" ++ url else url).data "api".data with
    | .error e => .error e
    | .ok api =>
      if pyTruthy key then
        .ok { base_url := if p.scheme.isEmpty then "http://" ++ url else url,
              url := String.mk api, __key := key,
              email := none, password := none,
              json_headers := [("Content-Type", "application/json")], verify := false }
      else
        .ok { base_url := if p.scheme.isEmpty then "http://" ++ url else url,
              url := String.mk api, __key := none,
              email := email, password := password,
              json_headers := [("Content-Type", "application/json")], verify := false }

/-- The authentication request built in the body of the `key` property (lines
92-99): the base64 of `email:password` set as the whole `Authorization` value
on a copy of `json_headers`, sent as a GET to `<apiURL>/authenticate/baseauth`
with the instance's `verify` flag. -/
def GalaxyContribInstance.authRequest (gi : GalaxyContribInstance) : Request :=
  let unencoded_credentials := pyStr gi.email ++ ":" ++ pyStr gi.password
  let authorization := Py.b64encode unencoded_credentials
  let headers := dictSet gi.json_headers "Authorization" authorization
  let auth_url := gi.url ++ "/authenticate/baseauth"
  { method := "GET", url := auth_url, verify := gi.verify, headers := headers }

deriving instance DecidableEq for Except

/-- Outcome of one read of the `key` property: the returned value or raised
exception, the instance state afterwards, and the HTTP requests issued. -/
structure KeyResult where
  result : Except PyErr String
  inst : GalaxyContribInstance
  requests : List Request
deriving DecidableEq

/-- The `key` property (lines 90-104), with the HTTP layer supplied as an
oracle `net` mapping each request to its response: return the cached `__key`
if set; otherwise issue the authentication request, raise
`Exception("Failed to authenticate user.")` on a non-200 status (leaving the
state unchanged), and otherwise cache and return `r.json()["api_key"]`
(raising `KeyError` if the field is absent). -/
def GalaxyContribInstance.key (gi : GalaxyContribInstance) (net : Request → Response) :
    KeyResult :=
  match gi.__key with
  | some k => ⟨.ok k, gi, []⟩
  | none =>
    let req := gi.authRequest
    let r := net req
    if r.status_code ≠ 200 then
      ⟨.error (.exception "Failed to authenticate user."), gi, [req]⟩
    else
      match r.json.lookup "api_key" with
      | none => ⟨.error (.keyError "api_key"), gi, [req]⟩
      | some v => ⟨.ok v, { gi with __key := some v }, [req]⟩

/-- Outcome of one read of the `default_params` property. -/
structure ParamsResult where
  result : Except PyErr (List (String × String))
  inst : GalaxyContribInstance
  requests : List Request
deriving DecidableEq

/-- The `default_params` property (lines 106-108): `{'key': self.key}`; reading
it evaluates the `key` property. -/
def GalaxyContribInstance.default_params (gi : GalaxyContribInstance)
    (net : Request → Response) : ParamsResult :=
  match (gi.key net).result with
  | .ok k => ⟨.ok [("key", k)], (gi.key net).inst, (gi.key net).requests⟩
  | .error e => ⟨.error e, (gi.key net).inst, (gi.key net).requests⟩

/-- Modelled from the spec: the process-wide configuration of the external
transport collaborator (`bioblend.galaxy.client.Client` class-level state,
which is not under `src/`): a maximum-GET-retries ceiling and an inter-retry
delay, shared by every instance in the process. -/
structure ClientState where
  max_get_retries : Int
  get_retry_delay : Int
deriving DecidableEq

/-- Modelled from the spec: `Client.max_get_retries()`. -/
def Client.max_get_retries (s : ClientState) : Int := s.max_get_retries

/-- Modelled from the spec: `Client.set_max_get_retries(v)`. -/
def Client.set_max_get_retries (s : ClientState) (v : Int) : ClientState :=
  { s with max_get_retries := v }

/-- Modelled from the spec: `Client.get_retry_delay()`. -/
def Client.get_retry_delay (s : ClientState) : Int := s.get_retry_delay

/-- Modelled from the spec: `Client.set_get_retry_delay(v)`. -/
def Client.set_get_retry_delay (s : ClientState) (v : Int) : ClientState :=
  { s with get_retry_delay := v }

/-- The `max_get_attempts` property getter (lines 110-112): pure forwarding to
the process-wide `Client` configuration, ignoring the instance. -/
def GalaxyContribInstance.max_get_attempts (_gi : GalaxyContribInstance)
    (s : ClientState) : Int :=
  Client.max_get_retries s

/-- The `max_get_attempts` property setter (lines 114-116). -/
def GalaxyContribInstance.set_max_get_attempts (_gi : GalaxyContribInstance)
    (s : ClientState) (v : Int) : ClientState :=
  Client.set_max_get_retries s v

/-- The `get_retry_delay` property getter (lines 118-120). -/
def GalaxyContribInstance.get_retry_delay (_gi : GalaxyContribInstance)
    (s : ClientState) : Int :=
  Client.get_retry_delay s

/-- The `get_retry_delay` property setter (lines 122-124). -/
def GalaxyContribInstance.set_get_retry_delay (_gi : GalaxyContribInstance)
    (s : ClientState) (v : Int) : ClientState :=
  Client.set_get_retry_delay s v

/-! ### Helper lemmas about `__init__` and the `key` property -/

/-- Fields of any instance produced by a successful `__init__`. -/
theorem init_fields (url : String) (key email password : Option String)
    (gi : GalaxyContribInstance)
    (h : GalaxyContribInstance.init url key email password = .ok gi) :
    gi.__key = (if pyTruthy key then key else none) ∧
    gi.email = (if pyTruthy key then none else email) ∧
    gi.password = (if pyTruthy key then none else password) ∧
    gi.json_headers = [("Content-Type", "application/json")] ∧
    gi.verify = false := by
  unfold GalaxyContribInstance.init at h
  repeat' split at h
  all_goals first
    | exact Except.noConfusion h
    | (injection h with h; subst h; simp_all)

/-- Reading `key` when a credential is cached returns it with no request. -/
theorem key_some_eq (gi : GalaxyContribInstance) (net : Request → Response) (k : String)
    (hk : gi.__key = some k) : gi.key net = ⟨.ok k, gi, []⟩ := by
  simp [GalaxyContribInstance.key, hk]

/-- Unfolding of a `key` read in the uncached state. -/
theorem key_none_eq (gi : GalaxyContribInstance) (net : Request → Response)
    (hk : gi.__key = none) :
    gi.key net =
      if (net gi.authRequest).status_code ≠ 200 then
        ⟨.error (.exception "Failed to authenticate user."), gi, [gi.authRequest]⟩
      else
        match (net gi.authRequest).json.lookup "api_key" with
        | none => ⟨.error (.keyError "api_key"), gi, [gi.authRequest]⟩
        | some v => ⟨.ok v, { gi with __key := some v }, [gi.authRequest]⟩ := by
  simp only [GalaxyContribInstance.key, hk]

/-- A `key` read never changes `json_headers` (the accessor works on a copy). -/
theorem key_inst_json_headers (gi : GalaxyContribInstance) (net : Request → Response) :
    (gi.key net).inst.json_headers = gi.json_headers := by
  cases hk : gi.__key with
  | some k => rw [key_some_eq gi net k hk]
  | none =>
    rw [key_none_eq gi net hk]
    split
    · rfl
    · split <;> rfl

/-- A `key` read in the uncached state issues exactly the authentication
request, whatever the response. -/
theorem key_requests_eq (gi : GalaxyContribInstance) (net : Request → Response)
    (hk : gi.__key = none) : (gi.key net).requests = [gi.authRequest] := by
  rw [key_none_eq gi net hk]
  split
  · rfl
  · split <;> rfl

/-- Reading `default_params` issues exactly the requests of the underlying
`key` read. -/
theorem default_params_requests (gi : GalaxyContribInstance) (net : Request → Response) :
    (gi.default_params net).requests = (gi.key net).requests := by
  unfold GalaxyContribInstance.default_params
  split <;> rfl

/-- Fixed headers produced by `headers = json_headers.copy();
headers["Authorization"] = v` on the constructor's header dict. -/
theorem dictSet_headers (v : String) :
    dictSet [("Content-Type", "application/json")] "Authorization" v
      = [("Content-Type", "application/json"), ("Authorization", v)] := rfl

/-! ### Concrete instances and oracles used by the witnesses -/

/-- Instance state after `__init__("h", key="abc")`. -/
def giABC : GalaxyContribInstance :=
  { base_url := "http://h", url := "http://h/api", __key := some "abc",
    email := none, password := none,
    json_headers := [("Content-Type", "application/json")], verify := false }

/-- Instance state after `__init__("h", email="e", password="p")`. -/
def giEP : GalaxyContribInstance :=
  { base_url := "http://h", url := "http://h/api", __key := none,
    email := some "e", password := some "p",
    json_headers := [("Content-Type", "application/json")], verify := false }

/-- Instance state after `__init__("h", email="a", password="b")`. -/
def giAB : GalaxyContribInstance :=
  { base_url := "http://h", url := "http://h/api", __key := none,
    email := some "a", password := some "b",
    json_headers := [("Content-Type", "application/json")], verify := false }

/-- Instance state after `__init__("localhost")` with no credentials at all. -/
def giNone : GalaxyContribInstance :=
  { base_url := "http://localhost", url := "http://localhost/api", __key := none,
    email := none, password := none,
    json_headers := [("Content-Type", "application/json")], verify := false }

/-- An HTTP oracle always answering 200 with body `{"api_key": "xyz"}`. -/
def net200 : Request → Response := fun _ => ⟨200, [("api_key", "xyz")]⟩

/-- An HTTP oracle always answering 403. -/
def net403 : Request → Response := fun _ => ⟨403, []⟩

/-! ### The claims -/

/-- C1, counterexample: constructing with the supplied key `""` does not make
the credential accessor return `""` with zero requests — `if key:` treats the
empty string as absent, so the accessor performs the authentication exchange
(one request) and returns the server-issued key instead. -/
theorem claim_C1_counterexample :
    (GalaxyContribInstance.init "h" (some "") none none).map
        (fun gi => ((gi.key net200).result, (gi.key net200).requests.length))
      = .ok (.ok "xyz", 1) ∧
    (Except.ok "xyz" : Except PyErr String) ≠ .ok "" ∧ (1 : Nat) ≠ 0 :=
  ⟨by decide, by decide, by decide⟩

/-- C1 (amended): if a non-empty key is supplied at construction, the
credential accessor returns exactly that key with zero authentication requests
on every read (an empty-string key is treated as absent); and if the
credential was obtained by a successful lazy resolution, every subsequent read
issues zero additional requests and returns the same cached value. -/
theorem claim_C1 :
    (∀ (url k : String) (email password : Option String) (gi : GalaxyContribInstance)
        (net : Request → Response),
      GalaxyContribInstance.init url (some k) email password = .ok gi → k ≠ "" →
      gi.key net = ⟨.ok k, gi, []⟩) ∧
    (∀ (gi : GalaxyContribInstance) (net net₂ : Request → Response) (v : String),
      gi.__key = none → (gi.key net).result = .ok v →
      (gi.key net).inst.key net₂ = ⟨.ok v, (gi.key net).inst, []⟩) := by
  constructor
  · intro url k email password gi net h hne
    have hf := (init_fields url (some k) email password gi h).1
    have htr : pyTruthy (some k) = true := by
      have hb : k.isEmpty = false :=
        Bool.eq_false_iff.mpr (fun hb => hne ((String.isEmpty_iff k).mp hb))
      simp [pyTruthy, bne_iff_ne, hne, hb]
    rw [htr, if_pos rfl] at hf
    exact key_some_eq gi net k hf
  · intro gi net net₂ v hk hv
    rw [key_none_eq gi net hk] at hv ⊢
    by_cases hs : (net gi.authRequest).status_code ≠ 200
    · rw [if_pos hs] at hv
      exact absurd hv (by simp)
    · rw [if_neg hs] at hv ⊢
      cases hj : (net gi.authRequest).json.lookup "api_key" with
      | none => simp [hj] at hv
      | some w =>
        simp only [hj] at hv ⊢
        have hwv : w = v := by simpa using hv
        subst hwv
        exact key_some_eq _ net₂ w rfl

/-- C1 witness: at `__init__("h", key="abc")` the accessor returns `"abc"`
with no requests, and after a successful lazy resolution on `giEP` the second
read is a pure cache hit. -/
theorem claim_C1_witness :
    giABC.key net200 = ⟨.ok "abc", giABC, []⟩ ∧
    (giEP.key net200).inst.key net403 = ⟨.ok "xyz", (giEP.key net200).inst, []⟩ :=
  ⟨claim_C1.1 "h" "abc" none none giABC net200 (by decide) (by decide),
   claim_C1.2 giEP net200 net403 "xyz" (by decide) (by decide)⟩

/-- C2, counterexample: constructed with neither key nor email/password, the
first credential read does not fail before any network call — it issues
exactly one authentication request (and then fails with the generic
authentication exception, not a configuration error). -/
theorem claim_C2_counterexample :
    (GalaxyContribInstance.init "localhost" none none none).map
        (fun gi => ((gi.key net403).requests.length, (gi.key net403).result))
      = .ok (1, .error (.exception "Failed to authenticate user.")) ∧
    (1 : Nat) ≠ 0 :=
  ⟨by decide, by decide⟩

/-- C2 (amended): for an Instance constructed with no key and no
email/password pair, the first read of the credential accessor does attempt
the network call: it issues exactly one authentication request whose
`Authorization` value is the base64 of the placeholder string `"None:None"`,
and on a non-200 response it fails with the generic authentication exception
rather than an early configuration error. -/
theorem claim_C2 (url : String) (gi : GalaxyContribInstance) (net : Request → Response)
    (h : GalaxyContribInstance.init url none none none = .ok gi)
    (hs : (net gi.authRequest).status_code ≠ 200) :
    gi.key net = ⟨.error (.exception "Failed to authenticate user."), gi, [gi.authRequest]⟩ ∧
    (gi.key net).requests.length = 1 ∧
    gi.authRequest.headers.lookup "Authorization" = some (Py.b64encode "None:None") := by
  obtain ⟨hk, he, hp, hj, -⟩ := init_fields url none none none gi h
  simp only [pyTruthy, Bool.false_eq_true, if_false] at hk he hp
  have hkey : gi.key net
      = ⟨.error (.exception "Failed to authenticate user."), gi, [gi.authRequest]⟩ := by
    rw [key_none_eq gi net hk, if_pos hs]
  refine ⟨hkey, by rw [hkey]; rfl, ?_⟩
  simp only [GalaxyContribInstance.authRequest, he, hp, hj]
  rfl

/-- C2 witness: the amended claim at `__init__("localhost")` against an
always-403 oracle. -/
theorem claim_C2_witness :
    giNone.key net403
        = ⟨.error (.exception "Failed to authenticate user."), giNone, [giNone.authRequest]⟩ ∧
    (giNone.key net403).requests.length = 1 ∧
    giNone.authRequest.headers.lookup "Authorization" = some (Py.b64encode "None:None") :=
  claim_C2 "localhost" giNone net403 (by decide) (by decide)

/-- C3, counterexample: with email `"a"` and password `"b"` the issued
request's `Authorization` header value is the bare base64 `"YTpi"` of
`"a:b"` — the `Basic ` scheme token the claim requires is not prepended. -/
theorem claim_C3_counterexample :
    (GalaxyContribInstance.init "h" none (some "a") (some "b")).map
        (fun gi => (gi.key net403).requests.map
          (fun r => r.headers.lookup "Authorization"))
      = .ok [some (Py.b64encode "a:b")] ∧
    Py.b64encode "a:b" = "YTpi" ∧ ("YTpi" : String) ≠ "Basic YTpi" :=
  ⟨by decide, by decide, by decide⟩

/-- C3 (amended): the authentication exchange issues a GET to
`<apiURL>/authenticate/baseauth` carrying the Instance's TLS flag, the header
`Content-Type: application/json`, and an `Authorization` header whose value is
`base64(email:password)` **without** the `Basic ` scheme token. -/
theorem claim_C3 (url : String) (email password : Option String)
    (gi : GalaxyContribInstance) (net : Request → Response)
    (h : GalaxyContribInstance.init url none email password = .ok gi) :
    (gi.key net).requests = [gi.authRequest] ∧
    gi.authRequest.method = "GET" ∧
    gi.authRequest.url = gi.url ++ "/authenticate/baseauth" ∧
    gi.authRequest.verify = gi.verify ∧
    gi.authRequest.headers.lookup "Authorization"
      = some (Py.b64encode (pyStr email ++ ":" ++ pyStr password)) ∧
    gi.authRequest.headers.lookup "Content-Type" = some "application/json" := by
  obtain ⟨hk, he, hp, hj, -⟩ := init_fields url none email password gi h
  simp only [pyTruthy, Bool.false_eq_true, if_false] at hk he hp
  refine ⟨key_requests_eq gi net hk, rfl, rfl, rfl, ?_, ?_⟩
  · simp only [GalaxyContribInstance.authRequest, he, hp, hj, dictSet_headers]
    rfl
  · simp only [GalaxyContribInstance.authRequest, he, hp, hj, dictSet_headers]
    rfl

/-- C3 witness: the amended claim at `__init__("h", email="a", password="b")`
against an always-403 oracle. -/
theorem claim_C3_witness :
    (giAB.key net403).requests = [giAB.authRequest] ∧
    giAB.authRequest.method = "GET" ∧
    giAB.authRequest.url = giAB.url ++ "/authenticate/baseauth" ∧
    giAB.authRequest.verify = giAB.verify ∧
    giAB.authRequest.headers.lookup "Authorization"
      = some (Py.b64encode (pyStr (some "a") ++ ":" ++ pyStr (some "b"))) ∧
    giAB.authRequest.headers.lookup "Content-Type" = some "application/json" :=
  claim_C3 "h" (some "a") (some "b") giAB net403 (by decide)

/-- C4: in the uncached state, a non-200 response makes the accessor fail with
the generic authentication exception, caches nothing (the state is unchanged,
so the next access repeats the full exchange), while a 200 response whose JSON
body has the string field `api_key` makes it cache and return that value. -/
theorem claim_C4 (gi : GalaxyContribInstance) (net : Request → Response)
    (hk : gi.__key = none) :
    ((net gi.authRequest).status_code ≠ 200 →
      gi.key net = ⟨.error (.exception "Failed to authenticate user."), gi, [gi.authRequest]⟩ ∧
      (gi.key net).inst = gi ∧
      ∀ net₂ : Request → Response, (gi.key net).inst.key net₂ = gi.key net₂) ∧
    (∀ v : String, (net gi.authRequest).status_code = 200 →
      (net gi.authRequest).json.lookup "api_key" = some v →
      (gi.key net).result = .ok v ∧ (gi.key net).inst.__key = some v) := by
  rw [key_none_eq gi net hk]
  constructor
  · intro hs
    rw [if_pos hs]
    exact ⟨rfl, rfl, fun net₂ => rfl⟩
  · intro v hs hj
    rw [if_neg (by simp [hs]), hj]
    exact ⟨rfl, rfl⟩

/-- C4 witness: the failure half on an always-403 oracle and the success half
on an always-200 oracle with body `{"api_key": "xyz"}`, at the concrete
instance `giEP`. -/
theorem claim_C4_witness :
    (giEP.key net403
        = ⟨.error (.exception "Failed to authenticate user."), giEP, [giEP.authRequest]⟩ ∧
      (giEP.key net403).inst = giEP ∧
      ∀ net₂ : Request → Response, (giEP.key net403).inst.key net₂ = giEP.key net₂) ∧
    ((giEP.key net200).result = .ok "xyz" ∧ (giEP.key net200).inst.__key = some "xyz") :=
  ⟨(claim_C4 giEP net403 rfl).1 (by decide),
   (claim_C4 giEP net200 rfl).2 "xyz" (by decide) (by decide)⟩

/-- C7: whenever the credential resolves to `k`, the default-parameters bag is
exactly the one-entry mapping `{'key': k}` (on both the direct-key and the
lazy-resolution path, since the bag is built from whatever `key` returns), and
reading the bag in the uncached state triggers the resolution request. -/
theorem claim_C7 (gi : GalaxyContribInstance) (net : Request → Response) :
    (∀ k : String, (gi.key net).result = .ok k →
      gi.default_params net
        = ⟨.ok [("key", k)], (gi.key net).inst, (gi.key net).requests⟩) ∧
    (gi.__key = none → (gi.default_params net).requests.length = 1) := by
  constructor
  · intro k hk
    simp only [GalaxyContribInstance.default_params, hk]
  · intro hk
    rw [default_params_requests, key_requests_eq gi net hk]
    rfl

/-- C7 witness: the bag equals `{'key': 'abc'}` on the direct-key path
(`giABC`) and `{'key': 'xyz'}` after lazy resolution (`giEP`), whose read
issues the one authentication request. -/
theorem claim_C7_witness :
    giABC.default_params net200
        = ⟨.ok [("key", "abc")], (giABC.key net200).inst, (giABC.key net200).requests⟩ ∧
    giEP.default_params net200
        = ⟨.ok [("key", "xyz")], (giEP.key net200).inst, (giEP.key net200).requests⟩ ∧
    (giEP.default_params net200).requests.length = 1 :=
  ⟨(claim_C7 giABC net200).1 "abc" (by decide),
   (claim_C7 giEP net200).1 "xyz" (by decide),
   (claim_C7 giEP net200).2 rfl⟩

/-- C8: the retry-ceiling and retry-delay accessors are pure forwarding to the
single process-wide configuration: a value set through any Instance is read
back unchanged through any other Instance, and reads do not depend on the
Instance at all. -/
theorem claim_C8 (gi₁ gi₂ : GalaxyContribInstance) (s : ClientState) (v w : Int) :
    gi₂.max_get_attempts (gi₁.set_max_get_attempts s v) = v ∧
    gi₂.get_retry_delay (gi₁.set_get_retry_delay s w) = w ∧
    gi₁.max_get_attempts s = gi₂.max_get_attempts s ∧
    gi₁.get_retry_delay s = gi₂.get_retry_delay s :=
  ⟨rfl, rfl, rfl, rfl⟩

/-- C9: the message of a failed authentication exchange is one constant
generic text, identical across any two runs whatever the email/password
material is, so no credential-derived data appears in it. -/
theorem claim_C9 (gi₁ gi₂ : GalaxyContribInstance) (net₁ net₂ : Request → Response)
    (h₁ : gi₁.__key = none) (h₂ : gi₂.__key = none)
    (hs₁ : (net₁ gi₁.authRequest).status_code ≠ 200)
    (hs₂ : (net₂ gi₂.authRequest).status_code ≠ 200) :
    (gi₁.key net₁).result = .error (.exception "Failed to authenticate user.") ∧
    (gi₁.key net₁).result = (gi₂.key net₂).result := by
  rw [key_none_eq gi₁ net₁ h₁, if_pos hs₁, key_none_eq gi₂ net₂ h₂, if_pos hs₂]
  exact ⟨rfl, rfl⟩

/-- C9 witness: two instances with different credentials produce the same
constant failure message. -/
theorem claim_C9_witness :
    (giEP.key net403).result = .error (.exception "Failed to authenticate user.") ∧
    (giEP.key net403).result = (giAB.key net403).result :=
  claim_C9 giEP giAB net403 net403 rfl rfl (by decide) (by decide)

/-- C10: a read of the credential accessor, successful or failed, leaves the
instance's `json_headers` untouched — still exactly the single mapping
`Content-Type: application/json` set at construction — because the accessor
adds `Authorization` to a copy of the header dict. -/
theorem claim_C10 (url : String) (key email password : Option String)
    (gi : GalaxyContribInstance) (net : Request → Response)
    (h : GalaxyContribInstance.init url key email password = .ok gi) :
    (gi.key net).inst.json_headers = gi.json_headers ∧
    gi.json_headers = [("Content-Type", "application/json")] :=
  ⟨key_inst_json_headers gi net, (init_fields url key email password gi h).2.2.2.1⟩

/-- C10 witness: the frame property at `__init__("h", email="e",
password="p")` against an always-403 oracle. -/
theorem claim_C10_witness :
    (giEP.key net403).inst.json_headers = giEP.json_headers ∧
    giEP.json_headers = [("Content-Type", "application/json")] :=
  claim_C10 "h" none (some "e") (some "p") giEP net403 (by decide)


/-! ### Lemmas for the URL-normalisation claims C5 and C6 -/

/-- A bare host chunk: nonempty, and free of the characters that trigger
netloc/query/fragment/params splitting, the port-heuristic scheme detection,
or the IPv6 bracket check. -/
def bareHost (s : List Char) : Bool :=
  !s.isEmpty && s.all (fun c =>
    !(c == '/' || c == '?' || c == '#' || c == ':' || c == '[' || c == ']' || c == ';'))

theorem bareHost_spec (s : List Char) (h : bareHost s = true) :
    s ≠ [] ∧ ∀ a ∈ s,
      a ≠ '/' ∧ a ≠ '?' ∧ a ≠ '#' ∧ a ≠ ':' ∧ a ≠ '[' ∧ a ≠ ']' ∧ a ≠ ';' := by
  simp only [bareHost, Bool.and_eq_true, List.all_eq_true, Bool.not_eq_true',
    Bool.or_eq_false_iff, beq_eq_false_iff_ne] at h
  obtain ⟨h1, h2⟩ := h
  constructor
  · intro hs
    subst hs
    simp at h1
  · intro a ha
    have := h2 a ha
    tauto

theorem pyFind_cons_self (c : Char) (l : List Char) : Py.pyFind c (c :: l) = some 0 := by
  simp [Py.pyFind]

theorem pyFind_cons_ne (a c : Char) (l : List Char) (h : a ≠ c) :
    Py.pyFind c (a :: l) = (Py.pyFind c l).map (· + 1) := by
  simp [Py.pyFind, h]

theorem pyFind_eq_none (c : Char) (l : List Char) (h : ∀ a ∈ l, a ≠ c) :
    Py.pyFind c l = none := by
  induction l with
  | nil => rfl
  | cons a t ih =>
    rw [pyFind_cons_ne a c t (h a (List.mem_cons_self a t)),
      ih (fun b hb => h b (List.mem_cons_of_mem a hb))]
    rfl

theorem pyIn_eq_false (c : Char) (l : List Char) (h : ∀ a ∈ l, a ≠ c) :
    Py.pyIn c l = false := by
  simp only [Py.pyIn, List.any_eq_false, beq_iff_eq]
  exact h

theorem splitnetloc_bare (u : List Char)
    (h : ∀ a ∈ u, a ≠ '/' ∧ a ≠ '?' ∧ a ≠ '#') :
    Py.splitnetloc ('/' :: '/' :: u) 2 = (u, []) := by
  have h1 : Py.pyFindFrom '/' ('/' :: '/' :: u) 2 = none := by
    simp [Py.pyFindFrom, pyFind_eq_none '/' u (fun a ha => (h a ha).1)]
  have h2 : Py.pyFindFrom '?' ('/' :: '/' :: u) 2 = none := by
    simp [Py.pyFindFrom, pyFind_eq_none '?' u (fun a ha => (h a ha).2.1)]
  have h3 : Py.pyFindFrom '#' ('/' :: '/' :: u) 2 = none := by
    simp [Py.pyFindFrom, pyFind_eq_none '#' u (fun a ha => (h a ha).2.2)]
  simp [Py.splitnetloc, h1, h2, h3, Py.optMin]

theorem urlsplitNetloc_bare (u : List Char)
    (h : ∀ a ∈ u, a ≠ '/' ∧ a ≠ '?' ∧ a ≠ '#' ∧ a ≠ '[' ∧ a ≠ ']') :
    Py.urlsplitNetloc ('/' :: '/' :: u) = .ok (u, []) := by
  have hsp := splitnetloc_bare u (fun a ha => ⟨(h a ha).1, (h a ha).2.1, (h a ha).2.2.1⟩)
  have hb1 : Py.pyIn '[' u = false := pyIn_eq_false _ _ (fun a ha => (h a ha).2.2.2.1)
  have hb2 : Py.pyIn ']' u = false := pyIn_eq_false _ _ (fun a ha => (h a ha).2.2.2.2)
  simp [Py.urlsplitNetloc, hsp, hb1, hb2]

theorem urlsplit_http_bare (u : List Char)
    (h : ∀ a ∈ u, a ≠ '/' ∧ a ≠ '?' ∧ a ≠ '#' ∧ a ≠ '[' ∧ a ≠ ']') :
    Py.urlsplit ('h' :: 't' :: 't' :: 'p' :: ':' :: '/' :: '/' :: u) []
      = .ok ⟨['h', 't', 't', 'p'], u, [], [], []⟩ := by
  have hfind : Py.pyFind ':' ('h' :: 't' :: 't' :: 'p' :: ':' :: '/' :: '/' :: u)
      = some 4 := by
    simp [Py.pyFind]
  have hfast : Py.urlsplitHttpFast ['h', 't', 't', 'p'] ('/' :: '/' :: u)
      = .ok ⟨['h', 't', 't', 'p'], u, [], [], []⟩ := by
    simp [Py.urlsplitHttpFast, urlsplitNetloc_bare u h, Py.pyIn]
  simp [Py.urlsplit, hfind, hfast]

theorem urlsplit_https_bare (u : List Char)
    (h : ∀ a ∈ u, a ≠ '/' ∧ a ≠ '?' ∧ a ≠ '#' ∧ a ≠ '[' ∧ a ≠ ']') :
    Py.urlsplit ('h' :: 't' :: 't' :: 'p' :: 's' :: ':' :: '/' :: '/' :: u) []
      = .ok ⟨['h', 't', 't', 'p', 's'], u, [], [], []⟩ := by
  have hfind : Py.pyFind ':' ('h' :: 't' :: 't' :: 'p' :: 's' :: ':' :: '/' :: '/' :: u)
      = some 5 := by
    simp [Py.pyFind]
  have hrest : Py.urlsplitRest ['h', 't', 't', 'p', 's'] ('/' :: '/' :: u)
      = .ok ⟨['h', 't', 't', 'p', 's'], u, [], [], []⟩ := by
    simp [Py.urlsplitRest, urlsplitNetloc_bare u h, Py.pyIn]
  have hc1 : 'h' ∈ Py.scheme_chars := by decide
  have hc2 : 't' ∈ Py.scheme_chars := by decide
  have hc3 : 'p' ∈ Py.scheme_chars := by decide
  have hc4 : 's' ∈ Py.scheme_chars := by decide
  simp [Py.urlsplit, hfind, hrest, hc1, hc2, hc3, hc4]

theorem urlparse_http_bare (u : List Char)
    (h : ∀ a ∈ u, a ≠ '/' ∧ a ≠ '?' ∧ a ≠ '#' ∧ a ≠ '[' ∧ a ≠ ']') :
    Py.urlparse ('h' :: 't' :: 't' :: 'p' :: ':' :: '/' :: '/' :: u) []
      = .ok ⟨['h', 't', 't', 'p'], u, [], [], [], []⟩ := by
  simp [Py.urlparse, urlsplit_http_bare u h, Py.pyIn]

theorem urlparse_https_bare (u : List Char)
    (h : ∀ a ∈ u, a ≠ '/' ∧ a ≠ '?' ∧ a ≠ '#' ∧ a ≠ '[' ∧ a ≠ ']') :
    Py.urlparse ('h' :: 't' :: 't' :: 'p' :: 's' :: ':' :: '/' :: '/' :: u) []
      = .ok ⟨['h', 't', 't', 'p', 's'], u, [], [], [], []⟩ := by
  simp [Py.urlparse, urlsplit_https_bare u h, Py.pyIn]

theorem urlparse_api (d : List Char) :
    Py.urlparse ['a', 'p', 'i'] d = .ok ⟨d, [], ['a', 'p', 'i'], [], [], []⟩ := by
  simp [Py.urlparse, Py.urlsplit, Py.urlsplitRest, Py.urlsplitNetloc, Py.pyFind, Py.pyIn]

theorem urlsplit_scheme_none_bare (u : List Char)
    (h : ∀ a ∈ u,
      a ≠ '/' ∧ a ≠ '?' ∧ a ≠ '#' ∧ a ≠ ':' ∧ a ≠ '[' ∧ a ≠ ']' ∧ a ≠ ';') :
    Py.urlsplit u [] = .ok ⟨[], [], u, [], []⟩ := by
  have hf : Py.pyFind ':' u = none := pyFind_eq_none ':' u (fun a ha => (h a ha).2.2.2.1)
  have htake : ¬u.take 2 = ['/', '/'] := by
    intro hcontra
    have hmem : '/' ∈ u.take 2 := by
      rw [hcontra]
      exact List.mem_cons_self '/' ['/']
    exact (h '/' (List.mem_of_mem_take hmem)).1 rfl
  have hin : Py.pyIn '#' u = false := pyIn_eq_false _ _ (fun a ha => (h a ha).2.2.1)
  have hin2 : Py.pyIn '?' u = false := pyIn_eq_false _ _ (fun a ha => (h a ha).2.1)
  simp [Py.urlsplit, Py.urlsplitRest, Py.urlsplitNetloc, hf, htake, hin, hin2]

theorem urlparse_scheme_none_bare (u : List Char)
    (h : ∀ a ∈ u,
      a ≠ '/' ∧ a ≠ '?' ∧ a ≠ '#' ∧ a ≠ ':' ∧ a ≠ '[' ∧ a ≠ ']' ∧ a ≠ ';') :
    Py.urlparse u [] = .ok ⟨[], [], u, [], [], []⟩ := by
  have hin : Py.pyIn ';' u = false := pyIn_eq_false _ _ (fun a ha => (h a ha).2.2.2.2.2.2)
  simp [Py.urlparse, urlsplit_scheme_none_bare u h, hin]

/-- Joining `api` onto a base that parsed to scheme `S`, bare netloc `u` and
empty path, for any scheme in both `uses_relative` and `uses_netloc`. -/
theorem urljoin_parsed_bare (base S u : List Char) (hbase_ne : base ≠ [])
    (hb : Py.urlparse base [] = .ok ⟨S, u, [], [], [], []⟩)
    (hrel : S ∈ Py.uses_relative) (hnet : S ∈ Py.uses_netloc)
    (hSne : S ≠ []) (hune : u ≠ []) :
    Py.urljoin base ['a', 'p', 'i']
      = .ok (S ++ ':' :: '/' :: '/' :: (u ++ ['/', 'a', 'p', 'i'])) := by
  have hbe : base.isEmpty = false := by
    cases base with
    | nil => exact absurd rfl hbase_ne
    | cons a t => rfl
  have hue : u.isEmpty = false := by
    cases u with
    | nil => exact absurd rfl hune
    | cons a t => rfl
  have hSe : S.isEmpty = false := by
    cases S with
    | nil => exact absurd rfl hSne
    | cons a t => rfl
  have hseg : Py.urljoinSegments [] ['a', 'p', 'i'] = ['a', 'p', 'i'] := rfl
  simp [Py.urljoin, hbe, hb, urlparse_api, hrel, hnet, hue, hSe, hseg,
    Py.urlunparse, Py.urlunsplit, hune, hSne]

theorem data_http_append (url : String) :
    ("http://" ++ url).data = 'h' :: 't' :: 't' :: 'p' :: ':' :: '/' :: '/' :: url.data := by
  simp

theorem data_https_append (url : String) :
    ("https://" ++ url).data
      = 'h' :: 't' :: 't' :: 'p' :: 's' :: ':' :: '/' :: '/' :: url.data := by
  simp

theorem api_data_eq : "api".data = ['a', 'p', 'i'] := rfl

/-- Any base that `urlparse` accepts can be joined with `api` (every branch of
`urljoin` after the two parses succeeds). -/
theorem urljoin_api_ok (base : List Char) (q : Py.ParseResult)
    (hb : Py.urlparse base [] = .ok q) :
    ∃ r, Py.urljoin base ['a', 'p', 'i'] = .ok r := by
  by_cases hbe : base.isEmpty = true
  · exact ⟨['a', 'p', 'i'], by simp [Py.urljoin, hbe]⟩
  · simp only [Py.urljoin, hbe, Bool.false_eq_true, if_false, hb, urlparse_api]
    repeat' split
    all_goals exact ⟨_, rfl⟩

/-! ### Claims C5 and C6 -/

/-- C5, counterexample: for the schemeless url `127.0.0.1/galaxy`, the derived
apiURL is `http://127.0.0.1/api`, not `http://` followed by the original
host/path plus `/api` — `urljoin` replaces the trailing non-directory path
segment `galaxy`. -/
theorem claim_C5_counterexample :
    (GalaxyContribInstance.init "127.0.0.1/galaxy" none none none).map
        (fun gi => (gi.base_url, gi.url))
      = .ok ("http://127.0.0.1/galaxy", "http://127.0.0.1/api") ∧
    ("http://127.0.0.1/api" : String) ≠ "http://" ++ "127.0.0.1/galaxy" ++ "/api" :=
  ⟨by decide, by decide⟩

/-- C5 (amended): for every url without a parsable scheme that names a bare
host (no `/`, `?`, `#`, `:`, `[`, `]`, `;`), the derived baseURL is `http://`
plus the url and the derived apiURL is `http://` plus the url plus `/api`.
For schemeless urls with a path, apiURL is still `urljoin(baseURL, 'api')`,
but the join replaces a trailing non-slash-terminated path segment, so the
original path need not survive (e.g. `127.0.0.1/galaxy` yields
`http://127.0.0.1/api`). -/
theorem claim_C5 (url : String) (key email password : Option String)
    (hb : bareHost url.data = true) :
    (GalaxyContribInstance.init url key email password).map
        (fun gi => (gi.base_url, gi.url))
      = .ok ("http://" ++ url, "http://" ++ url ++ "/api") := by
  obtain ⟨hne, hchars⟩ := bareHost_spec url.data hb
  have hchars5 : ∀ a ∈ url.data, a ≠ '/' ∧ a ≠ '?' ∧ a ≠ '#' ∧ a ≠ '[' ∧ a ≠ ']' :=
    fun a ha => ⟨(hchars a ha).1, (hchars a ha).2.1, (hchars a ha).2.2.1,
      (hchars a ha).2.2.2.2.1, (hchars a ha).2.2.2.2.2.1⟩
  have hparse := urlparse_scheme_none_bare url.data hchars
  have hbase : Py.urlparse ("http://" ++ url).data []
      = .ok ⟨['h', 't', 't', 'p'], url.data, [], [], [], []⟩ := by
    rw [data_http_append]
    exact urlparse_http_bare url.data hchars5
  have hjoin : Py.urljoin ("http://" ++ url).data ['a', 'p', 'i']
      = .ok (['h', 't', 't', 'p'] ++ ':' :: '/' :: '/' :: (url.data ++ ['/', 'a', 'p', 'i'])) :=
    urljoin_parsed_bare _ _ _ (by rw [data_http_append]; simp) hbase
      (by decide) (by decide) (by decide) hne
  have hstr : String.mk
      ('h' :: 't' :: 't' :: 'p' :: ':' :: '/' :: '/' :: (url.data ++ ['/', 'a', 'p', 'i']))
      = "http://" ++ url ++ "/api" := by
    apply String.ext
    simp
  simp only [GalaxyContribInstance.init, hparse, List.isEmpty_nil, if_true, api_data_eq,
    hjoin]
  cases pyTruthy key <;> simp [hstr, Except.map]

/-- C5 witness: the amended claim at the bare host `127.0.0.1`. -/
theorem claim_C5_witness :
    (GalaxyContribInstance.init "127.0.0.1" none none none).map
        (fun gi => (gi.base_url, gi.url))
      = .ok ("http://" ++ "127.0.0.1", "http://" ++ "127.0.0.1" ++ "/api") :=
  claim_C5 "127.0.0.1" none none none (by decide)

/-- C6, counterexample: the url `localhost:8080/galaxy` carries the parsable
scheme `localhost` (so the `http://` default is not prepended), yet the
derived apiURL is just `api`, which has no scheme at all — the scheme is not
preserved because `localhost` is not in `urlparse`'s `uses_relative` list. -/
theorem claim_C6_counterexample :
    (Py.urlparse "localhost:8080/galaxy".data []).map (fun p => p.scheme)
      = .ok "localhost".data ∧
    (GalaxyContribInstance.init "localhost:8080/galaxy" none none none).map
        (fun gi => (gi.base_url, gi.url))
      = .ok ("localhost:8080/galaxy", "api") ∧
    (Py.urlparse "api".data []).map (fun p => p.scheme) = .ok [] :=
  ⟨by decide, by decide, by decide⟩

/-- C6 (amended): the `http://` default is prepended only when no scheme is
parsable — any url with a parsable scheme is kept as baseURL unchanged — and
for urls of the form `https://host` with a bare host the explicit `https`
scheme is preserved unchanged in the derived apiURL `https://host/api`. For a
parsable scheme outside `urlparse`'s `uses_relative` list (such as
`localhost` parsed out of `localhost:8080/galaxy`) the join degenerates to
`api` and the scheme is lost. -/
theorem claim_C6 :
    (∀ (url : String) (key email password : Option String) (q : Py.ParseResult),
      Py.urlparse url.data [] = .ok q → q.scheme ≠ [] →
      (GalaxyContribInstance.init url key email password).map (fun gi => gi.base_url)
        = .ok url) ∧
    (∀ (host : String) (key email password : Option String),
      bareHost host.data = true →
      (GalaxyContribInstance.init ("https://" ++ host) key email password).map
          (fun gi => (gi.base_url, gi.url))
        = .ok ("https://" ++ host, "https://" ++ host ++ "/api")) := by
  constructor
  · intro url key email password q hq hs
    have hse : q.scheme.isEmpty = false := by
      cases hsc : q.scheme with
      | nil => exact absurd hsc hs
      | cons a t => rfl
    obtain ⟨r, hr⟩ := urljoin_api_ok url.data q hq
    simp only [GalaxyContribInstance.init, hq, hse, Bool.false_eq_true, if_false,
      api_data_eq, hr]
    cases pyTruthy key <;> simp [Except.map]
  · intro host key email password hb
    obtain ⟨hne, hchars⟩ := bareHost_spec host.data hb
    have hchars5 : ∀ a ∈ host.data,
        a ≠ '/' ∧ a ≠ '?' ∧ a ≠ '#' ∧ a ≠ '[' ∧ a ≠ ']' :=
      fun a ha => ⟨(hchars a ha).1, (hchars a ha).2.1, (hchars a ha).2.2.1,
        (hchars a ha).2.2.2.2.1, (hchars a ha).2.2.2.2.2.1⟩
    have hbase : Py.urlparse ("https://" ++ host).data []
        = .ok ⟨['h', 't', 't', 'p', 's'], host.data, [], [], [], []⟩ := by
      rw [data_https_append]
      exact urlparse_https_bare host.data hchars5
    have hjoin : Py.urljoin ("https://" ++ host).data ['a', 'p', 'i']
        = .ok (['h', 't', 't', 'p', 's'] ++ ':' :: '/' :: '/' ::
          (host.data ++ ['/', 'a', 'p', 'i'])) :=
      urljoin_parsed_bare _ _ _ (by rw [data_https_append]; simp) hbase
        (by decide) (by decide) (by decide) hne
    have hstr : String.mk
        ('h' :: 't' :: 't' :: 'p' :: 's' :: ':' :: '/' :: '/' ::
          (host.data ++ ['/', 'a', 'p', 'i']))
        = "https://" ++ host ++ "/api" := by
      apply String.ext
      simp
    simp only [GalaxyContribInstance.init, hbase, List.isEmpty_cons, Bool.false_eq_true,
      if_false, api_data_eq, hjoin]
    cases pyTruthy key <;> simp [hstr, Except.map]

/-- C6 witness: part one at `http://h` (scheme `http` parsable, baseURL kept
unchanged) and part two at the bare host `h` under the `https` scheme. -/
theorem claim_C6_witness :
    (GalaxyContribInstance.init "http://h" none none none).map (fun gi => gi.base_url)
      = .ok "http://h" ∧
    (GalaxyContribInstance.init ("https://" ++ "h") none none none).map
        (fun gi => (gi.base_url, gi.url))
      = .ok ("https://" ++ "h", "https://" ++ "h" ++ "/api") :=
  ⟨claim_C6.1 "http://h" none none none ⟨"http".data, "h".data, [], [], [], []⟩
      (by decide) (by decide),
   claim_C6.2 "h" none none none (by decide)⟩

end B2G
